import Mathlib

/-!
Shallow embedding of the ETL pipeline core (`src/etl_pipeline/`) of the
Mongo-JSON-to-Postgres ETL repository, together with proofs of the frozen
claims about its specification.

Modelling conventions:
* Python values flowing through documents are a tagged variant `Value`
  (null / bool / int / float / str / list / dict / date / datetime / Decimal).
  Python floats are modelled by rationals; no claim proved here depends on
  binary floating-point rounding or on Python's shortest-roundtrip float repr.
* Python dicts are association lists built by `dictSet`, which reproduces
  Python's assignment semantics (overwrite in place, keep first position,
  append fresh keys at the end).
* Exceptions that a function catches and converts (`ValueError`, `TypeError`,
  `InvalidOperation`, `psycopg2.OperationalError`) are modelled with
  `Option`/`Except`; fallible external effects (database connect / insert
  outcomes) are explicit boolean/variant inputs.
* `datetime.now(timezone.utc)` is modelled by an explicit clock argument.
-/

namespace ETL

/-- Model of `datetime.date`. -/
structure PyDate where
  year : Nat
  month : Nat
  day : Nat
deriving DecidableEq, Repr

/-- Model of `datetime.datetime` (microseconds and tzinfo are never inspected
by the code under verification and are omitted). -/
structure PyDateTime where
  year : Nat
  month : Nat
  day : Nat
  hour : Nat
  minute : Nat
  second : Nat
deriving DecidableEq, Repr

/-- `datetime.date()`: drop the time-of-day part. -/
def PyDateTime.date (dt : PyDateTime) : PyDate :=
  { year := dt.year, month := dt.month, day := dt.day }

/-- `datetime.combine(value, time.min)`: promote a bare date to midnight. -/
def PyDate.toMidnight (d : PyDate) : PyDateTime :=
  { year := d.year, month := d.month, day := d.day, hour := 0, minute := 0, second := 0 }

/-- Tagged variant of the JSON-like Python values the transformer consumes and
produces.  `vdecimal` carries the string a `Decimal` was parsed from. -/
inductive Value where
  | vnone
  | vbool (b : Bool)
  | vint (n : Int)
  | vfloat (q : ℚ)
  | vstr (s : String)
  | vlist (xs : List Value)
  | vdict (kvs : List (String × Value))
  | vdate (d : PyDate)
  | vdatetime (dt : PyDateTime)
  | vdecimal (s : String)

/-- A Python dict modelled as an association list (first occurrence of a key
is the binding; `dictSet` keeps keys unique). -/
abbrev Dict := List (String × Value)

/-- Python dict assignment `d[k] = v`: overwrite in place if the key exists,
otherwise append at the end. -/
def dictSet {α : Type} (d : List (String × α)) (k : String) (v : α) :
    List (String × α) :=
  match d with
  | [] => [(k, v)]
  | (k0, v0) :: rest =>
      if k0 = k then (k, v) :: rest else (k0, v0) :: dictSet rest k v

/-- Build a Python dict from a list of assignments executed in order. -/
def pyDict {α : Type} (kvs : List (String × α)) : List (String × α) :=
  kvs.foldl (fun acc p => dictSet acc p.1 p.2) []

/-- Association-list lookup (first binding wins; dict keys built by
`dictSet` are unique, so this is Python dict lookup). -/
def alookup {α : Type} (d : List (String × α)) (k : String) : Option α :=
  match d with
  | [] => none
  | (k0, v0) :: rest => if k0 = k then some v0 else alookup rest k

/-- Python `key in document`. -/
def hasKey (d : Dict) (k : String) : Bool :=
  (alookup d k).isSome

/-- Python `document.get(key)` (default `None`). -/
def docGet (d : Dict) (k : String) : Value :=
  (alookup d k).getD Value.vnone

/-- Python `str.strip()`'s notion of whitespace, restricted to ASCII (the
Unicode whitespace extension is never exercised by the configuration data). -/
def isPyWhitespace (c : Char) : Bool :=
  c = ' ' ∨ (9 ≤ c.toNat ∧ c.toNat ≤ 13)

/-- Python `str.strip()` (kernel-computable, character-level model). -/
def strStrip (s : String) : String :=
  String.mk (((s.data.dropWhile isPyWhitespace).reverse.dropWhile isPyWhitespace).reverse)

/-- Python `str.lower()` (ASCII case mapping, character-level model). -/
def strLower (s : String) : String :=
  String.mk (s.data.map Char.toLower)

/-- `type_utils.normalize_type`: `type_value.strip().lower()`. -/
def normalize_type (t : String) : String :=
  strLower (strStrip t)

/-- `str(value)`.  The repr of compound and float values is abbreviated: no
claim proved in this development inspects the text produced for lists, dicts
or floats (Python's recursive/shortest-roundtrip reprs are not modelled). -/
def pyStr (v : Value) : String :=
  match v with
  | .vnone => "None"
  | .vbool true => "True"
  | .vbool false => "False"
  | .vint n => toString n
  | .vfloat q => toString q.num ++ "/" ++ toString q.den
  | .vstr s => s
  | .vlist _ => "[...]"
  | .vdict _ => "{...}"
  | .vdate d => toString d.year ++ "-" ++ toString d.month ++ "-" ++ toString d.day
  | .vdatetime dt => toString dt.year ++ "-" ++ toString dt.month ++ "-" ++ toString dt.day
  | .vdecimal s => s

/-- Parse an optionally signed run of decimal digits (model of the digit
grammar accepted by `int(str)`; underscores between digits are not modelled,
no claim exercises them). -/
def parseSignedDigits (cs : List Char) : Option Int :=
  match cs with
  | [] => none
  | '+' :: rest =>
      if rest ≠ [] ∧ rest.all Char.isDigit then
        some (Int.ofNat (rest.foldl (fun a c => a * 10 + (c.toNat - 48)) 0))
      else none
  | '-' :: rest =>
      if rest ≠ [] ∧ rest.all Char.isDigit then
        some (-(Int.ofNat (rest.foldl (fun a c => a * 10 + (c.toNat - 48)) 0)))
      else none
  | _ =>
      if cs.all Char.isDigit then
        some (Int.ofNat (cs.foldl (fun a c => a * 10 + (c.toNat - 48)) 0))
      else none

/-- `int(value)`: `none` models a `ValueError`/`TypeError` being raised. -/
def pyInt (v : Value) : Option Int :=
  match v with
  | .vbool b => some (if b then 1 else 0)
  | .vint n => some n
  | .vfloat q => some (q.num.tdiv (q.den : Int))
  | .vstr s => parseSignedDigits (strStrip s).data
  | _ => none

/-- Digit-string test used by the float grammar model. -/
def allDigits (cs : List Char) : Bool :=
  cs.all Char.isDigit

/-- Model of the decimal-literal grammar `[sign] digits [. digits]` accepted
by `float(str)` and `Decimal(str)`; exponents / inf / nan are not modelled
(no claim exercises them). -/
def parseDecimalLiteral (cs : List Char) : Option ℚ :=
  let core : List Char → Option ℚ := fun body =>
    match body.span (fun c => c ≠ '.') with
    | (intPart, []) =>
        if intPart ≠ [] ∧ allDigits intPart then
          some ((intPart.foldl (fun a c => a * 10 + (c.toNat - 48)) 0 : Nat) : ℚ)
        else none
    | (intPart, _ :: fracPart) =>
        if (intPart ≠ [] ∨ fracPart ≠ []) ∧ allDigits intPart ∧ allDigits fracPart then
          some
            (((intPart.foldl (fun a c => a * 10 + (c.toNat - 48)) 0 : Nat) : ℚ) +
              ((fracPart.foldl (fun a c => a * 10 + (c.toNat - 48)) 0 : Nat) : ℚ) /
                ((10 : ℚ) ^ fracPart.length))
        else none
  match cs with
  | '+' :: rest => core rest
  | '-' :: rest => (core rest).map (fun q => -q)
  | _ => core cs

/-- `float(value)`: `none` models a raised `ValueError`/`TypeError`. -/
def pyFloat (v : Value) : Option ℚ :=
  match v with
  | .vbool b => some (if b then 1 else 0)
  | .vint n => some (n : ℚ)
  | .vfloat q => some q
  | .vstr s => parseDecimalLiteral (strStrip s).data
  | _ => none

/-- Whether `Decimal(s)` parses without `InvalidOperation` (same literal
grammar model as `parseDecimalLiteral`). -/
def isDecimalString (s : String) : Bool :=
  (parseDecimalLiteral (strStrip s).data).isSome

/-- `transformer.normalize_boolean`: native booleans pass through, native
numbers map by truthiness, strings go through the trimmed case-insensitive
vocabulary; `none` models the raised `ValueError`. -/
def normalize_boolean (value : Value) : Option Bool :=
  match value with
  | .vbool b => some b
  | .vint n => some (n ≠ 0)
  | .vfloat q => some (q ≠ 0)
  | .vstr s =>
      let normalized := strLower (strStrip s)
      if ["true", "t", "yes", "y", "1"].contains normalized then some true
      else if ["false", "f", "no", "n", "0"].contains normalized then some false
      else none
  | _ => none

/-! ### `datetime.strptime` / `strftime` over the directive subset the
pipeline's format configuration uses (`%Y %m %d %H %M %S` and literals).
The per-directive digit grammars follow CPython's `_strptime` regexes; an
unknown directive raises `ValueError`, which the callers treat as a failed
match, so `parseFormat` returning `none` models it. -/

inductive FmtTok where
  | year
  | month
  | day
  | hour
  | minute
  | second
  | lit (c : Char)
deriving DecidableEq, Repr

/-- Compile a format string into directives; `none` models the `ValueError`
CPython raises on a directive outside the modelled subset. -/
def parseFormat : List Char → Option (List FmtTok)
  | [] => some []
  | '%' :: c :: rest =>
      match c with
      | 'Y' => (parseFormat rest).map (fun ts => FmtTok.year :: ts)
      | 'm' => (parseFormat rest).map (fun ts => FmtTok.month :: ts)
      | 'd' => (parseFormat rest).map (fun ts => FmtTok.day :: ts)
      | 'H' => (parseFormat rest).map (fun ts => FmtTok.hour :: ts)
      | 'M' => (parseFormat rest).map (fun ts => FmtTok.minute :: ts)
      | 'S' => (parseFormat rest).map (fun ts => FmtTok.second :: ts)
      | '%' => (parseFormat rest).map (fun ts => FmtTok.lit '%' :: ts)
      | _ => none
  | '%' :: [] => none
  | c :: rest => (parseFormat rest).map (fun ts => FmtTok.lit c :: ts)

/-- Parsed field values; CPython defaults a missing year/month/day to
1900-01-01 and times to 0. -/
structure TimeParts where
  y : Nat := 1900
  mo : Nat := 1
  d : Nat := 1
  h : Nat := 0
  mi : Nat := 0
  s : Nat := 0
deriving DecidableEq, Repr

def digitVal (c : Char) : Nat := c.toNat - 48

/-- Backtracking matcher mirroring the compiled regex CPython builds: each
numeric directive tries its two-digit alternative first, then one digit, and
the whole input must be consumed. -/
def matchToks : List FmtTok → List Char → TimeParts → Option TimeParts
  | [], [], tp => some tp
  | [], _ :: _, _ => none
  | FmtTok.lit _ :: _, [], _ => none
  | FmtTok.lit c :: toks, c0 :: cs, tp =>
      if c = c0 then matchToks toks cs tp else none
  | FmtTok.year :: toks, cs, tp =>
      match cs with
      | c1 :: c2 :: c3 :: c4 :: rest =>
          if c1.isDigit ∧ c2.isDigit ∧ c3.isDigit ∧ c4.isDigit then
            matchToks toks rest
              { tp with y := ((digitVal c1 * 10 + digitVal c2) * 10 + digitVal c3) * 10 + digitVal c4 }
          else none
      | _ => none
  | FmtTok.month :: toks, cs, tp =>
      (match cs with
       | c1 :: c2 :: rest =>
           if c1.isDigit ∧ c2.isDigit ∧ 1 ≤ digitVal c1 * 10 + digitVal c2 ∧
               digitVal c1 * 10 + digitVal c2 ≤ 12 then
             matchToks toks rest { tp with mo := digitVal c1 * 10 + digitVal c2 }
           else none
       | _ => none) <|>
      (match cs with
       | c1 :: rest =>
           if c1.isDigit ∧ 1 ≤ digitVal c1 then
             matchToks toks rest { tp with mo := digitVal c1 }
           else none
       | _ => none)
  | FmtTok.day :: toks, cs, tp =>
      (match cs with
       | c1 :: c2 :: rest =>
           if c1.isDigit ∧ c2.isDigit ∧ 1 ≤ digitVal c1 * 10 + digitVal c2 ∧
               digitVal c1 * 10 + digitVal c2 ≤ 31 then
             matchToks toks rest { tp with d := digitVal c1 * 10 + digitVal c2 }
           else none
       | _ => none) <|>
      (match cs with
       | c1 :: rest =>
           if c1.isDigit ∧ 1 ≤ digitVal c1 then
             matchToks toks rest { tp with d := digitVal c1 }
           else none
       | _ => none)
  | FmtTok.hour :: toks, cs, tp =>
      (match cs with
       | c1 :: c2 :: rest =>
           if c1.isDigit ∧ c2.isDigit ∧ digitVal c1 * 10 + digitVal c2 ≤ 23 then
             matchToks toks rest { tp with h := digitVal c1 * 10 + digitVal c2 }
           else none
       | _ => none) <|>
      (match cs with
       | c1 :: rest =>
           if c1.isDigit then matchToks toks rest { tp with h := digitVal c1 } else none
       | _ => none)
  | FmtTok.minute :: toks, cs, tp =>
      (match cs with
       | c1 :: c2 :: rest =>
           if c1.isDigit ∧ c2.isDigit ∧ digitVal c1 * 10 + digitVal c2 ≤ 59 then
             matchToks toks rest { tp with mi := digitVal c1 * 10 + digitVal c2 }
           else none
       | _ => none) <|>
      (match cs with
       | c1 :: rest =>
           if c1.isDigit then matchToks toks rest { tp with mi := digitVal c1 } else none
       | _ => none)
  | FmtTok.second :: toks, cs, tp =>
      (match cs with
       | c1 :: c2 :: rest =>
           if c1.isDigit ∧ c2.isDigit ∧ digitVal c1 * 10 + digitVal c2 ≤ 59 then
             matchToks toks rest { tp with s := digitVal c1 * 10 + digitVal c2 }
           else none
       | _ => none) <|>
      (match cs with
       | c1 :: rest =>
           if c1.isDigit then matchToks toks rest { tp with s := digitVal c1 } else none
       | _ => none)

def isLeap (y : Nat) : Bool :=
  y % 4 = 0 ∧ (y % 100 ≠ 0 ∨ y % 400 = 0)

def daysInMonth (y m : Nat) : Nat :=
  if m = 2 then (if isLeap y then 29 else 28)
  else if m = 4 ∨ m = 6 ∨ m = 9 ∨ m = 11 then 30
  else 31

/-- `datetime.strptime(value, fmt)`; `none` models the `ValueError` raised on
a non-matching input, an out-of-range date, or an unsupported directive. -/
def strptime (value fmt : String) : Option PyDateTime :=
  match parseFormat fmt.data with
  | none => none
  | some toks =>
      match matchToks toks value.data {} with
      | none => none
      | some tp =>
          if 1 ≤ tp.y ∧ 1 ≤ tp.d ∧ tp.d ≤ daysInMonth tp.y tp.mo then
            some { year := tp.y, month := tp.mo, day := tp.d,
                   hour := tp.h, minute := tp.mi, second := tp.s }
          else none

def padTo (width : Nat) (n : Nat) : String :=
  let s := toString n
  String.mk (List.replicate (width - s.length) '0') ++ s

/-- `datetime.strftime` over the modelled directive subset; a directive
outside the subset is emitted verbatim (platform-defined in CPython, never
exercised by the claims). -/
def strftimeChars (dt : PyDateTime) : List Char → String
  | [] => ""
  | '%' :: c :: rest =>
      (match c with
       | 'Y' => padTo 4 dt.year
       | 'm' => padTo 2 dt.month
       | 'd' => padTo 2 dt.day
       | 'H' => padTo 2 dt.hour
       | 'M' => padTo 2 dt.minute
       | 'S' => padTo 2 dt.second
       | '%' => "%"
       | c0 => String.mk ['%', c0]) ++ strftimeChars dt rest
  | c :: rest => String.mk [c] ++ strftimeChars dt rest

def PyDateTime.strftime (dt : PyDateTime) (fmt : String) : String :=
  strftimeChars dt fmt.data

def PyDate.strftime (d : PyDate) (fmt : String) : String :=
  PyDateTime.strftime d.toMidnight fmt

/-- The `for date_format in date_formats` loop of `parse_date`: try each
format in list order, first successful parse wins. -/
def tryDateFormats (s : String) : List String → Option PyDate
  | [] => none
  | f :: rest =>
      match strptime s f with
      | some dt => some dt.date
      | none => tryDateFormats s rest

/-- The `for date_format in date_formats` loop of `parse_datetime`. -/
def tryDatetimeFormats (s : String) : List String → Option PyDateTime
  | [] => none
  | f :: rest =>
      match strptime s f with
      | some dt => some dt
      | none => tryDatetimeFormats s rest

/-- `transformer.parse_date`. -/
def parse_date (value : Value) (date_formats : List String) : Option PyDate :=
  match value with
  | .vdatetime dt => some dt.date
  | .vdate d => some d
  | .vstr s => tryDateFormats s date_formats
  | _ => none

/-- `transformer.parse_datetime`. -/
def parse_datetime (value : Value) (date_formats : List String) : Option PyDateTime :=
  match value with
  | .vdatetime dt => some dt
  | .vdate d => some d.toMidnight
  | .vstr s => tryDatetimeFormats s date_formats
  | _ => none

/-- `transformer.transform_value`: returns `(converted, error)`; a present
`None` short-circuits before any type dispatch. -/
def transform_value (value : Value) (target_type : String) (date_formats : List String)
    (date_output_format datetime_output_format : String) : Value × Option String :=
  match value with
  | .vnone => (Value.vnone, none)
  | v =>
      let nt := normalize_type target_type
      if nt = "text" ∨ nt = "string" ∨ nt = "varchar" then
        (Value.vstr (pyStr v), none)
      else if nt = "integer" ∨ nt = "int" ∨ nt = "bigint" ∨ nt = "smallint" then
        match pyInt v with
        | some n => (Value.vint n, none)
        | none => (Value.vnone, some ("invalid value for type '" ++ target_type ++ "'"))
      else if nt = "float" ∨ nt = "double" ∨ nt = "double precision" then
        match pyFloat v with
        | some q => (Value.vfloat q, none)
        | none => (Value.vnone, some ("invalid value for type '" ++ target_type ++ "'"))
      else if nt = "numeric" ∨ nt = "decimal" then
        if isDecimalString (pyStr v) then (Value.vdecimal (pyStr v), none)
        else (Value.vnone, some ("invalid value for type '" ++ target_type ++ "'"))
      else if nt = "boolean" ∨ nt = "bool" then
        match normalize_boolean v with
        | some b => (Value.vbool b, none)
        | none => (Value.vnone, some ("invalid value for type '" ++ target_type ++ "'"))
      else if nt = "date" then
        match parse_date v date_formats with
        | none => (Value.vnone, some "invalid date format")
        | some d => (Value.vstr (PyDate.strftime d date_output_format), none)
      else if nt = "datetime" then
        match parse_datetime v date_formats with
        | none => (Value.vnone, some "invalid datetime format")
        | some dt => (Value.vstr (PyDateTime.strftime dt datetime_output_format), none)
      else
        (Value.vnone, some ("unsupported target type '" ++ target_type ++ "'"))

/-- One mapping entry `{column, type}` of a collection's `mappings` dict. -/
structure Mapping where
  column : String
  type : String
deriving Repr

/-- Result triple of `transform_document`. -/
structure TransformResult where
  transformed : Dict
  missing_columns : List String
  errors : List String

/-- The body of `transform_document`'s loop over `mappings.items()`,
threading the three accumulators exactly as the Python loop does. -/
def transformLoop (document : Dict) (date_formats : List String)
    (date_output_format datetime_output_format : String) :
    List (String × Mapping) → TransformResult → TransformResult
  | [], acc => acc
  | (source_attr, m) :: rest, acc =>
      if hasKey document source_attr then
        let value := docGet document source_attr
        let r := transform_value value m.type date_formats date_output_format
          datetime_output_format
        match r.2 with
        | some e =>
            transformLoop document date_formats date_output_format datetime_output_format rest
              { transformed := dictSet acc.transformed m.column Value.vnone,
                missing_columns := acc.missing_columns,
                errors := acc.errors ++ [source_attr ++ ": " ++ e] }
        | none =>
            transformLoop document date_formats date_output_format datetime_output_format rest
              { transformed := dictSet acc.transformed m.column r.1,
                missing_columns := acc.missing_columns,
                errors := acc.errors }
      else
        transformLoop document date_formats date_output_format datetime_output_format rest
          { transformed := dictSet acc.transformed m.column Value.vnone,
            missing_columns := acc.missing_columns ++ [m.column],
            errors := acc.errors }

/-- `transformer.transform_document`. -/
def transform_document (document : Dict) (mappings : List (String × Mapping))
    (date_formats : List String) (date_output_format datetime_output_format : String) :
    TransformResult :=
  transformLoop document date_formats date_output_format datetime_output_format mappings
    { transformed := [], missing_columns := [], errors := [] }

/-! ### `postgres_loader.split_table_name` and `schema_utils` -/

/-- Split a list of characters at the first dot (`str.split(".", maxsplit=1)`);
`none` when no dot occurs. -/
def splitAtDot : List Char → Option (List Char × List Char)
  | [] => none
  | '.' :: rest => some ([], rest)
  | c :: rest => (splitAtDot rest).map (fun p => (c :: p.1, p.2))

/-- `postgres_loader.split_table_name`: split a qualified name at the first
dot, defaulting the schema segment to `public`. -/
def split_table_name (table_name : String) : String × String :=
  match splitAtDot table_name.data with
  | some (s, t) => (String.mk s, String.mk t)
  | none => ("public", table_name)

/-- `schema_utils.normalize_table_name`: lower-case both segments of the
split name. -/
def normalize_table_name (table_name : String) : String :=
  let p := split_table_name table_name
  strLower p.1 ++ "." ++ strLower p.2

/-- `PostgresLoader.table_exists`: the catalog (`information_schema.tables`)
is modelled as the list of `(table_schema, table_name)` pairs present in the
database; the SQL `=` on the bound parameters is exact string equality. -/
def table_exists (catalog : List (String × String)) (table_name : String) : Bool :=
  let p := split_table_name table_name
  catalog.any (fun q => q.1 == p.1 && q.2 == p.2)

/-! ### `postgres_loader.ensure_database` -/

/-- Does `needle` occur as a contiguous run at the head of `hay`? -/
def leadsWith : List Char → List Char → Bool
  | [], _ => true
  | _ :: _, [] => false
  | a :: as, b :: bs => a == b && leadsWith as bs

/-- Does `needle` occur contiguously anywhere in `hay`? -/
def hasSub (needle : List Char) : List Char → Bool
  | [] => leadsWith needle []
  | c :: rest => leadsWith needle (c :: rest) || hasSub needle rest

/-- Python `needle in s` on strings. -/
def strContains (s needle : String) : Bool :=
  hasSub needle.data s.data

/-- The database-connection settings `ensure_database` branches on.
Host/port/user/password/sslmode only feed the connection attempts themselves,
which are modelled by the outcome parameters below, so they are omitted.
`create_if_missing` carries the value of
`db_config.get("create_if_missing", True)`. -/
structure DbConfig where
  name : String
  create_if_missing : Bool

/-- Outcome of the `psycopg2.connect` probe against the configured database
(line 126): success, or an `OperationalError` with its message.  (An
exception of another class would propagate uncaught; no claim depends on
that path.) -/
inductive ProbeResult where
  | connOk
  | opError (msg : String)
deriving DecidableEq, Repr

/-- Outcome of the administrative-database block (connect, `pg_database`
lookup, optional `CREATE DATABASE`): success telling whether the database
already existed, or any exception's message. -/
inductive AdminResult where
  | adminOk (dbAlreadyExists : Bool)
  | adminError (msg : String)
deriving DecidableEq, Repr

/-- Observable outcome of `ensure_database`: a normal return recording
whether the pre-flight probe ran and whether a `CREATE DATABASE` was issued,
or a raised `LoadError`. -/
inductive EnsureOutcome where
  | done (probed : Bool) (createdDb : Bool)
  | loadError (msg : String)
deriving DecidableEq, Repr

/-- `postgres_loader.ensure_database`.  Note the guard on lines 111-112 of
the source: when `create_if_missing` is false the function returns before
any connection attempt, which makes the disabled-and-missing `LoadError`
branch (source lines 133-136) unreachable. -/
def ensure_database (cfg : DbConfig) (probe : ProbeResult) (admin : AdminResult) :
    EnsureOutcome :=
  if ¬ cfg.create_if_missing then EnsureOutcome.done false false
  else
    match probe with
    | ProbeResult.connOk => EnsureOutcome.done true false
    | ProbeResult.opError msg =>
        if ¬ strContains msg "does not exist" then
          EnsureOutcome.loadError ("Failed to connect to PostgreSQL: " ++ msg)
        else if ¬ cfg.create_if_missing then
          EnsureOutcome.loadError
            ("Database '" ++ cfg.name ++ "' does not exist and auto-create is disabled.")
        else
          match admin with
          | AdminResult.adminError m =>
              EnsureOutcome.loadError
                ("Failed to create database '" ++ cfg.name ++ "': " ++ m)
          | AdminResult.adminOk dbAlreadyExists =>
              EnsureOutcome.done true (!dbAlreadyExists)

/-! ### `audit.py` builders and the audit configuration -/

/-- Python-dict lookup on a string-keyed association list, with a default
(the validated configuration always contains the required keys, so the
default never fires on real configs; it stands in for the `KeyError` path). -/
def dget (d : List (String × String)) (k : String) : String :=
  (alookup d k).getD ""

/-- The `audit` section of the application configuration, as validated by
`validate_app_config`.  Column-name maps are kept as dicts (association
lists), exactly as the source reads them. -/
structure AuditConfig where
  audit_table : String
  business_columns : List (String × String)
  business_column_types : List (String × String)
  audit_columns : List (String × String)
  statusSuccess : String
  statusError : String
  statusMissing : String
  objStatusNew : String
  objStatusMissing : String
  objStatusAlreadyExists : String

/-- `audit.build_business_audit_fields`.  `now` models the
`datetime.now(timezone.utc)` captured at row-construction time. -/
def build_business_audit_fields (audit : AuditConfig) (collection_name status : String)
    (now : PyDateTime) : List (String × Value) :=
  [(dget audit.business_columns "ingested_at", Value.vdatetime now),
   (dget audit.business_columns "source_collection", Value.vstr collection_name),
   (dget audit.business_columns "status", Value.vstr status)]

/-- Encode Python's `str | None` column payloads. -/
def optStr : Option String → Value
  | none => Value.vnone
  | some s => Value.vstr s

/-- `audit.build_audit_row`; built with `pyDict` so degenerate configurations
that reuse one physical column name resolve like a Python dict literal. -/
def build_audit_row (audit : AuditConfig) (object_id source_collection : Option String)
    (object_name object_status : String) (missing_columns : List String)
    (processing_status : String) (now : PyDateTime) : Dict :=
  pyDict
    [(dget audit.audit_columns "ingested_at", Value.vdatetime now),
     (dget audit.audit_columns "object_id", optStr object_id),
     (dget audit.audit_columns "source_collection", optStr source_collection),
     (dget audit.audit_columns "object_name", Value.vstr object_name),
     (dget audit.audit_columns "object_status", Value.vstr object_status),
     (dget audit.audit_columns "missing_columns", Value.vlist (missing_columns.map Value.vstr)),
     (dget audit.audit_columns "processing_status", Value.vstr processing_status)]

/-! ### `schema_manager.build_table_columns` -/

/-- One column definition handed to `create_table`. -/
structure ColumnDef where
  name : String
  type : String
  not_null : Bool
deriving DecidableEq, Repr

/-- `type_utils.normalize_type_mappings`: dict comprehension keyed by the
normalized type name. -/
def normalize_type_mappings (type_mappings : List (String × String)) :
    List (String × String) :=
  pyDict (type_mappings.map (fun p => (normalize_type p.1, p.2)))

/-- `schema_manager._add_column`: strict duplicate check, then append. -/
def addColumn (st : List ColumnDef × List String) (name sql_type : String)
    (not_null : Bool) : Except String (List ColumnDef × List String) :=
  if st.2.contains name then
    Except.error ("Duplicate column name detected: " ++ name)
  else
    Except.ok (st.1 ++ [{ name := name, type := sql_type, not_null := not_null }], st.2 ++ [name])

/-- The loop over `mappings.values()` in `build_table_columns`. -/
def buildMappingColumns (ntm : List (String × String)) :
    List (String × Mapping) → List ColumnDef × List String →
    Except String (List ColumnDef × List String)
  | [], st => Except.ok st
  | (_, m) :: rest, st =>
      match alookup ntm (normalize_type m.type) with
      | none =>
          Except.error
            ("Missing SQL type mapping for '" ++ m.type ++ "' in runtime.type_mappings.")
      | some sql_type =>
          match addColumn st m.column sql_type false with
          | Except.error e => Except.error e
          | Except.ok st2 => buildMappingColumns ntm rest st2

/-- The loop over `business_columns.items()` in `build_table_columns`. -/
def buildBusinessColumns (business_column_types : List (String × String)) :
    List (String × String) → List ColumnDef × List String →
    Except String (List ColumnDef × List String)
  | [], st => Except.ok st
  | (logical_name, column_name) :: rest, st =>
      match alookup business_column_types logical_name with
      | none =>
          Except.error ("Missing audit.business_column_types for '" ++ logical_name ++ "'.")
      | some sql_type =>
          match addColumn st column_name sql_type true with
          | Except.error e => Except.error e
          | Except.ok st2 => buildBusinessColumns business_column_types rest st2

/-- `schema_manager.build_table_columns`; `Except.error` models the raised
`ConfigError`. -/
def build_table_columns (mappings : List (String × Mapping)) (raw_json_column : String)
    (type_mappings business_columns business_column_types : List (String × String)) :
    Except String (List ColumnDef) :=
  match buildMappingColumns (normalize_type_mappings type_mappings) mappings ([], []) with
  | Except.error e => Except.error e
  | Except.ok st =>
      match addColumn st raw_json_column "JSONB" true with
      | Except.error e => Except.error e
      | Except.ok st2 =>
          match buildBusinessColumns business_column_types business_columns st2 with
          | Except.error e => Except.error e
          | Except.ok st3 => Except.ok st3.1

/-! ### `pipeline.run` — the per-collection region (source lines 139-284)

The loader's fallible external effects are explicit inputs: whether the
destination table is present in the database catalog (`tableInDb`), whether
each document's business `insert_row` and audit `insert_row` succeed
(exceptions from psycopg2 are environment outcomes, not functions of the
data).  Statement executions are recorded as an event trace. -/

/-- The statements the per-collection region issues against the loader. -/
inductive Event where
  | insertRow (table : String) (row : Dict)
  | commit
  | rollback
  | createSchema (name : String)
  | createTable (name : String) (columns : List ColumnDef)

/-- One collection's entry in the mapping configuration. -/
structure CollectionConfig where
  target_table : String
  raw_json_column : String
  object_id_attribute : String
  mappings : List (String × Mapping)

/-- The `runtime` settings the transformer consumes. -/
structure RuntimeConfig where
  date_formats : List String
  date_output_format : String
  datetime_output_format : String
  type_mappings : List (String × String)

/-- Observable outcome of the per-document body (source lines 188-284). -/
structure DocTrace where
  events : List Event
  processingStatus : String
  auditRow : Dict
  recordedInsertFailed : Bool
  recordedHadErrors : Bool

/-- The per-document body of `run`'s loop (source lines 188-284).
`tableExists` is the flag after the auto-create step; `businessOk` and
`auditOk` are the outcomes of the two fallible `insert_row` calls.  The two
`datetime.now(timezone.utc)` captures inside one document body are modelled
by the single clock instant `now` (their values are never compared by the
code). -/
def processDocument (audit : AuditConfig) (rt : RuntimeConfig) (cc : CollectionConfig)
    (collection_name object_status : String) (tableExists : Bool) (now : PyDateTime)
    (doc : Dict) (businessOk auditOk : Bool) : DocTrace :=
  let r := transform_document doc cc.mappings rt.date_formats rt.date_output_format
    rt.datetime_output_format
  let business_status := if r.errors = [] then audit.statusSuccess else audit.statusError
  let object_id : Option String :=
    match docGet doc cc.object_id_attribute with
    | Value.vnone => none
    | v => some (pyStr v)
  let step :=
    if tableExists then
      let row := pyDict
        (r.transformed ++ [(cc.raw_json_column, Value.vdict doc)] ++
          build_business_audit_fields audit collection_name business_status now)
      if businessOk then
        ([Event.insertRow cc.target_table row], business_status, false)
      else
        ([Event.insertRow cc.target_table row, Event.rollback], audit.statusError, true)
    else
      ([], audit.statusMissing, true)
  let auditRow := build_audit_row audit object_id (some collection_name) cc.target_table
    object_status r.missing_columns step.2.1 now
  if auditOk then
    { events := step.1 ++ [Event.insertRow audit.audit_table auditRow, Event.commit],
      processingStatus := step.2.1,
      auditRow := auditRow,
      recordedInsertFailed := step.2.2,
      recordedHadErrors := !r.errors.isEmpty }
  else
    { events := step.1 ++ [Event.insertRow audit.audit_table auditRow, Event.rollback],
      processingStatus := step.2.1,
      auditRow := auditRow,
      recordedInsertFailed := true,
      recordedHadErrors := !r.errors.isEmpty }

/-- Observable outcome of one collection's processing. -/
structure CollectionTrace where
  objectStatus : String
  createdTable : Bool
  missingDbRecorded : Bool
  docs : List DocTrace
  events : List Event

/-- The per-collection region of `run` (source lines 139-284): table
resolution, conditional auto-create, then the per-document loop.  `tableInDb`
is `loader.table_exists(target_table)`; `inSchema` is
`normalize_table_name(target_table) ∈ schema_tables_no_audit`; each document
comes with the outcomes of its business and audit inserts.  `Except.error`
models the `ConfigError` `build_table_columns` can raise out of the region. -/
def processCollection (audit : AuditConfig) (rt : RuntimeConfig) (cc : CollectionConfig)
    (collection_name : String) (tableInDb inSchema : Bool) (now : PyDateTime)
    (docs : List (Dict × Bool × Bool)) : Except String CollectionTrace :=
  let object_status :=
    if tableInDb then audit.objStatusAlreadyExists
    else if ¬ inSchema then audit.objStatusNew
    else audit.objStatusMissing
  if ¬ tableInDb ∧ ¬ inSchema then
    match build_table_columns cc.mappings cc.raw_json_column rt.type_mappings
        audit.business_columns audit.business_column_types with
    | Except.error e => Except.error e
    | Except.ok cols =>
        let createEvents := [Event.createSchema (split_table_name cc.target_table).1,
          Event.createTable cc.target_table cols, Event.commit]
        let dts := docs.map (fun p =>
          processDocument audit rt cc collection_name object_status true now p.1 p.2.1 p.2.2)
        Except.ok
          { objectStatus := object_status,
            createdTable := true,
            missingDbRecorded := false,
            docs := dts,
            events := createEvents ++ (dts.map (fun dt => dt.events)).flatten }
  else
    let dts := docs.map (fun p =>
      processDocument audit rt cc collection_name object_status tableInDb now p.1 p.2.1 p.2.2)
    Except.ok
      { objectStatus := object_status,
        createdTable := false,
        missingDbRecorded := inSchema ∧ ¬ tableInDb,
        docs := dts,
        events := (dts.map (fun dt => dt.events)).flatten }

/-- Number of `insert_row` calls issued against `table` in a trace. -/
def countInsertsTo (table : String) (es : List Event) : Nat :=
  es.countP (fun e => match e with
    | Event.insertRow t _ => t == table
    | _ => false)

/-- Whether a trace contains any `create_table` statement. -/
def hasCreateTable (es : List Event) : Bool :=
  es.any (fun e => match e with
    | Event.createTable _ _ => true
    | _ => false)

/-! ## Shared lemmas about the dict model and the transformer loop -/

theorem lookup_dictSet_self {α : Type} (d : List (String × α)) (k : String) (v : α) :
    alookup (dictSet d k v) k = some v := by
  induction d with
  | nil => simp [dictSet, alookup]
  | cons p rest ih =>
      obtain ⟨k0, v0⟩ := p
      by_cases h : k0 = k
      · simp [dictSet, h, alookup]
      · simp [dictSet, h, alookup, ih]

theorem lookup_dictSet_ne {α : Type} (d : List (String × α)) (k k0 : String) (v : α)
    (h : k0 ≠ k) : alookup (dictSet d k v) k0 = alookup d k0 := by
  induction d with
  | nil => simp [dictSet, alookup, Ne.symm h]
  | cons p rest ih =>
      obtain ⟨k1, v1⟩ := p
      by_cases h1 : k1 = k
      · subst h1
        simp [dictSet, alookup, Ne.symm h]
      · simp [dictSet, h1, alookup, ih]

theorem lookup_dictSet_isSome {α : Type} (d : List (String × α)) (k k0 : String) (v : α)
    (h : (alookup d k0).isSome) : (alookup (dictSet d k v) k0).isSome := by
  by_cases hk : k0 = k
  · subst hk
    simp [lookup_dictSet_self]
  · rwa [lookup_dictSet_ne d k k0 v hk]

/-- The transformer loop only ever appends to `errors` and `missing_columns`. -/
theorem transformLoop_extend (document : Dict) (df : List String) (dof dtf : String)
    (maps : List (String × Mapping)) (acc : TransformResult) :
    ∃ le lm, (transformLoop document df dof dtf maps acc).errors = acc.errors ++ le ∧
      (transformLoop document df dof dtf maps acc).missing_columns =
        acc.missing_columns ++ lm := by
  induction maps generalizing acc with
  | nil => exact ⟨[], [], by simp [transformLoop], by simp [transformLoop]⟩
  | cons p rest ih =>
      obtain ⟨source_attr, m⟩ := p
      by_cases hk : hasKey document source_attr
      · rcases hr : (transform_value (docGet document source_attr) m.type df dof dtf).2 with
          _ | e
        · obtain ⟨le, lm, h1, h2⟩ := ih
            { transformed := dictSet acc.transformed m.column
                (transform_value (docGet document source_attr) m.type df dof dtf).1,
              missing_columns := acc.missing_columns, errors := acc.errors }
          exact ⟨le, lm, by simpa [transformLoop, hk, hr] using h1,
            by simpa [transformLoop, hk, hr] using h2⟩
        · obtain ⟨le, lm, h1, h2⟩ := ih
            { transformed := dictSet acc.transformed m.column Value.vnone,
              missing_columns := acc.missing_columns,
              errors := acc.errors ++ [source_attr ++ ": " ++ e] }
          exact ⟨(source_attr ++ ": " ++ e) :: le, lm,
            by simpa [transformLoop, hk, hr] using h1,
            by simpa [transformLoop, hk, hr] using h2⟩
      · obtain ⟨le, lm, h1, h2⟩ := ih
          { transformed := dictSet acc.transformed m.column Value.vnone,
            missing_columns := acc.missing_columns ++ [m.column],
            errors := acc.errors }
        exact ⟨le, m.column :: lm,
          by simpa [transformLoop, hk] using h1,
          by simpa [transformLoop, hk] using h2⟩

/-- Keys not among the remaining target columns are left untouched by the
transformer loop. -/
theorem transformLoop_stable (document : Dict) (df : List String) (dof dtf : String)
    (maps : List (String × Mapping)) (acc : TransformResult) (k : String)
    (h : k ∉ maps.map (fun p => p.2.column)) :
    alookup (transformLoop document df dof dtf maps acc).transformed k =
      alookup acc.transformed k := by
  induction maps generalizing acc with
  | nil => simp [transformLoop]
  | cons p rest ih =>
      obtain ⟨source_attr, m⟩ := p
      simp only [List.map_cons, List.mem_cons, not_or] at h
      obtain ⟨hne, hrest⟩ := h
      by_cases hk : hasKey document source_attr
      · rcases hr : (transform_value (docGet document source_attr) m.type df dof dtf).2 with
          _ | e
        · rw [show transformLoop document df dof dtf ((source_attr, m) :: rest) acc =
              transformLoop document df dof dtf rest
                { transformed := dictSet acc.transformed m.column
                    (transform_value (docGet document source_attr) m.type df dof dtf).1,
                  missing_columns := acc.missing_columns, errors := acc.errors } by
              simp [transformLoop, hk, hr]]
          rw [ih _ hrest]
          exact lookup_dictSet_ne _ _ _ _ hne
        · rw [show transformLoop document df dof dtf ((source_attr, m) :: rest) acc =
              transformLoop document df dof dtf rest
                { transformed := dictSet acc.transformed m.column Value.vnone,
                  missing_columns := acc.missing_columns,
                  errors := acc.errors ++ [source_attr ++ ": " ++ e] } by
              simp [transformLoop, hk, hr]]
          rw [ih _ hrest]
          exact lookup_dictSet_ne _ _ _ _ hne
      · rw [show transformLoop document df dof dtf ((source_attr, m) :: rest) acc =
            transformLoop document df dof dtf rest
              { transformed := dictSet acc.transformed m.column Value.vnone,
                missing_columns := acc.missing_columns ++ [m.column],
                errors := acc.errors } by
            simp [transformLoop, hk]]
        rw [ih _ hrest]
        exact lookup_dictSet_ne _ _ _ _ hne

/-- One iteration of the body of `transform_document`'s loop, as a function
of the accumulator (used to factor the induction proofs). -/
def transformStep (document : Dict) (df : List String) (dof dtf : String)
    (p : String × Mapping) (acc : TransformResult) : TransformResult :=
  if hasKey document p.1 then
    match (transform_value (docGet document p.1) p.2.type df dof dtf).2 with
    | some e =>
        { transformed := dictSet acc.transformed p.2.column Value.vnone,
          missing_columns := acc.missing_columns,
          errors := acc.errors ++ [p.1 ++ ": " ++ e] }
    | none =>
        { transformed := dictSet acc.transformed p.2.column
            (transform_value (docGet document p.1) p.2.type df dof dtf).1,
          missing_columns := acc.missing_columns,
          errors := acc.errors }
  else
    { transformed := dictSet acc.transformed p.2.column Value.vnone,
      missing_columns := acc.missing_columns ++ [p.2.column],
      errors := acc.errors }

theorem transformLoop_cons (document : Dict) (df : List String) (dof dtf : String)
    (p : String × Mapping) (rest : List (String × Mapping)) (acc : TransformResult) :
    transformLoop document df dof dtf (p :: rest) acc =
      transformLoop document df dof dtf rest (transformStep document df dof dtf p acc) := by
  obtain ⟨source_attr, m⟩ := p
  by_cases hk : hasKey document source_attr
  · rcases hr : (transform_value (docGet document source_attr) m.type df dof dtf).2 with _ | e
    · simp [transformLoop, transformStep, hk, hr]
    · simp [transformLoop, transformStep, hk, hr]
  · simp [transformLoop, transformStep, hk]

/-- A key bound in the accumulator stays bound through the loop. -/
theorem transformLoop_isSome_mono (document : Dict) (df : List String) (dof dtf : String)
    (maps : List (String × Mapping)) (acc : TransformResult) (k : String)
    (h : (alookup acc.transformed k).isSome) :
    (alookup (transformLoop document df dof dtf maps acc).transformed k).isSome := by
  induction maps generalizing acc with
  | nil => simpa [transformLoop] using h
  | cons p rest ih =>
      obtain ⟨source_attr, m⟩ := p
      by_cases hk : hasKey document source_attr
      · rcases hr : (transform_value (docGet document source_attr) m.type df dof dtf).2 with
          _ | e
        · rw [show transformLoop document df dof dtf ((source_attr, m) :: rest) acc =
              transformLoop document df dof dtf rest
                { transformed := dictSet acc.transformed m.column
                    (transform_value (docGet document source_attr) m.type df dof dtf).1,
                  missing_columns := acc.missing_columns, errors := acc.errors } by
              simp [transformLoop, hk, hr]]
          exact ih _ (lookup_dictSet_isSome _ _ _ _ h)
        · rw [show transformLoop document df dof dtf ((source_attr, m) :: rest) acc =
              transformLoop document df dof dtf rest
                { transformed := dictSet acc.transformed m.column Value.vnone,
                  missing_columns := acc.missing_columns,
                  errors := acc.errors ++ [source_attr ++ ": " ++ e] } by
              simp [transformLoop, hk, hr]]
          exact ih _ (lookup_dictSet_isSome _ _ _ _ h)
      · rw [show transformLoop document df dof dtf ((source_attr, m) :: rest) acc =
            transformLoop document df dof dtf rest
              { transformed := dictSet acc.transformed m.column Value.vnone,
                missing_columns := acc.missing_columns ++ [m.column],
                errors := acc.errors } by
            simp [transformLoop, hk]]
        exact ih _ (lookup_dictSet_isSome _ _ _ _ h)

/-- Target-column facts about one loop iteration: the iteration always binds
the entry's target column, with `null` when the key is absent or the
coercion failed. -/
theorem transformStep_binds (document : Dict) (df : List String) (dof dtf : String)
    (p : String × Mapping) (acc : TransformResult) :
    (alookup (transformStep document df dof dtf p acc).transformed p.2.column).isSome := by
  unfold transformStep
  by_cases hk : hasKey document p.1
  · rcases hr : (transform_value (docGet document p.1) p.2.type df dof dtf).2 with _ | e
    · simp [hk, hr, lookup_dictSet_self]
    · simp [hk, hr, lookup_dictSet_self]
  · simp [hk, lookup_dictSet_self]

/-- Every mapped attribute's target column is bound in the loop's result:
no document is ever rejected wholesale. -/
theorem transformLoop_coverage (document : Dict) (df : List String) (dof dtf : String)
    (maps : List (String × Mapping)) (acc : TransformResult) (attr : String) (m : Mapping)
    (hmem : (attr, m) ∈ maps) :
    (alookup (transformLoop document df dof dtf maps acc).transformed m.column).isSome := by
  induction maps generalizing acc with
  | nil => cases hmem
  | cons p rest ih =>
      rw [transformLoop_cons]
      rcases List.mem_cons.mp hmem with heq | htl
      · subst heq
        exact transformLoop_isSome_mono _ _ _ _ _ _ _
          (transformStep_binds document df dof dtf (attr, m) acc)
      · exact ih _ htl

/-- A failed coercion contributes its `"attribute: message"` string to the
final error list. -/
theorem transformLoop_error_mem (document : Dict) (df : List String) (dof dtf : String)
    (maps : List (String × Mapping)) (acc : TransformResult) (attr : String) (m : Mapping)
    (e : String) (hmem : (attr, m) ∈ maps) (hk : hasKey document attr = true)
    (he : (transform_value (docGet document attr) m.type df dof dtf).2 = some e) :
    (attr ++ ": " ++ e) ∈ (transformLoop document df dof dtf maps acc).errors := by
  induction maps generalizing acc with
  | nil => cases hmem
  | cons p rest ih =>
      rw [transformLoop_cons]
      rcases List.mem_cons.mp hmem with heq | htl
      · subst heq
        obtain ⟨le, lm, h1, _⟩ := transformLoop_extend document df dof dtf rest
          (transformStep document df dof dtf (attr, m) acc)
        rw [h1]
        have hst : (transformStep document df dof dtf (attr, m) acc).errors =
            acc.errors ++ [attr ++ ": " ++ e] := by
          unfold transformStep
          simp [hk, he]
        rw [hst]
        simp
      · exact ih _ htl

/-- With pairwise-distinct target columns, a failed or absent attribute's
target column is `null` in the final row. -/
theorem transformLoop_writes_null (document : Dict) (df : List String) (dof dtf : String)
    (maps : List (String × Mapping)) (acc : TransformResult) (attr : String) (m : Mapping)
    (hnodup : (maps.map (fun p => p.2.column)).Nodup)
    (hmem : (attr, m) ∈ maps)
    (hwrite : hasKey document attr = false ∨
      ((transform_value (docGet document attr) m.type df dof dtf).2).isSome) :
    alookup (transformLoop document df dof dtf maps acc).transformed m.column =
      some Value.vnone := by
  induction maps generalizing acc with
  | nil => cases hmem
  | cons p rest ih =>
      simp only [List.map_cons, List.nodup_cons] at hnodup
      obtain ⟨hnotin, hnd⟩ := hnodup
      rw [transformLoop_cons]
      rcases List.mem_cons.mp hmem with heq | htl
      · subst heq
        rw [transformLoop_stable _ _ _ _ _ _ _ hnotin]
        unfold transformStep
        rcases hwrite with habs | hsome
        · simp [habs, lookup_dictSet_self]
        · obtain ⟨e, he⟩ := Option.isSome_iff_exists.mp hsome
          by_cases hk : hasKey document attr
          · simp [hk, he, lookup_dictSet_self]
          · simp [hk, lookup_dictSet_self]
      · exact ih _ hnd htl

/-- The final `missing_columns` is exactly the target columns of the mapped
attributes whose keys are absent from the document, in mapping order. -/
theorem transformLoop_missing_eq (document : Dict) (df : List String) (dof dtf : String)
    (maps : List (String × Mapping)) (acc : TransformResult) :
    (transformLoop document df dof dtf maps acc).missing_columns =
      acc.missing_columns ++
        (maps.filter (fun p => !(hasKey document p.1))).map (fun p => p.2.column) := by
  induction maps generalizing acc with
  | nil => simp [transformLoop]
  | cons p rest ih =>
      rw [transformLoop_cons, ih]
      by_cases hk : hasKey document p.1
      · have hst : (transformStep document df dof dtf p acc).missing_columns =
            acc.missing_columns := by
          unfold transformStep
          rcases hr : (transform_value (docGet document p.1) p.2.type df dof dtf).2 with _ | e
          · simp [hk, hr]
          · simp [hk, hr]
        rw [hst]
        simp [hk]
      · have hst : (transformStep document df dof dtf p acc).missing_columns =
            acc.missing_columns ++ [p.2.column] := by
          unfold transformStep
          simp [hk]
        rw [hst]
        simp [hk]

/-- When no present attribute's coercion fails, the loop adds no errors. -/
theorem transformLoop_errors_clean (document : Dict) (df : List String) (dof dtf : String)
    (maps : List (String × Mapping)) (acc : TransformResult)
    (h : ∀ a mp, (a, mp) ∈ maps → hasKey document a = true →
      (transform_value (docGet document a) mp.type df dof dtf).2 = none) :
    (transformLoop document df dof dtf maps acc).errors = acc.errors := by
  induction maps generalizing acc with
  | nil => simp [transformLoop]
  | cons p rest ih =>
      rw [transformLoop_cons]
      have hst : (transformStep document df dof dtf p acc).errors = acc.errors := by
        unfold transformStep
        by_cases hk : hasKey document p.1
        · rcases hr : (transform_value (docGet document p.1) p.2.type df dof dtf).2 with _ | e
          · simp [hk, hr]
          · exact absurd hr (by simp [h p.1 p.2 (by simp) hk])
        · simp [hk]
      rw [ih _ (fun a mp hm hk => h a mp (List.mem_cons_of_mem _ hm) hk), hst]

/-- With pairwise-distinct target columns, a successfully converted present
attribute's target column holds the converted value in the final row. -/
theorem transformLoop_writes_value (document : Dict) (df : List String) (dof dtf : String)
    (maps : List (String × Mapping)) (acc : TransformResult) (attr : String) (m : Mapping)
    (hnodup : (maps.map (fun p => p.2.column)).Nodup)
    (hmem : (attr, m) ∈ maps)
    (hk : hasKey document attr = true)
    (he : (transform_value (docGet document attr) m.type df dof dtf).2 = none) :
    alookup (transformLoop document df dof dtf maps acc).transformed m.column =
      some (transform_value (docGet document attr) m.type df dof dtf).1 := by
  induction maps generalizing acc with
  | nil => cases hmem
  | cons p rest ih =>
      simp only [List.map_cons, List.nodup_cons] at hnodup
      obtain ⟨hnotin, hnd⟩ := hnodup
      rw [transformLoop_cons]
      rcases List.mem_cons.mp hmem with heq | htl
      · subst heq
        rw [transformLoop_stable _ _ _ _ _ _ _ hnotin]
        unfold transformStep
        simp [hk, he, lookup_dictSet_self]
      · exact ih _ hnd htl

/-! ## Concrete sample configuration used by the witnesses -/

def sampleAudit : AuditConfig :=
  { audit_table := "public.etl_audit",
    business_columns :=
      [("ingested_at", "ing_at"), ("source_collection", "src_coll"), ("status", "biz_status")],
    business_column_types :=
      [("ingested_at", "TIMESTAMPTZ"), ("source_collection", "TEXT"), ("status", "TEXT")],
    audit_columns :=
      [("ingested_at", "a_ing_at"), ("object_id", "a_obj_id"),
       ("source_collection", "a_src_coll"), ("object_name", "a_obj_name"),
       ("object_status", "a_obj_status"), ("missing_columns", "a_missing_cols"),
       ("processing_status", "a_proc_status")],
    statusSuccess := "SUCCESS", statusError := "ERROR", statusMissing := "MISSING",
    objStatusNew := "NEW", objStatusMissing := "MISSING",
    objStatusAlreadyExists := "ALREADY_EXISTS" }

def sampleRuntime : RuntimeConfig :=
  { date_formats := ["%Y-%m-%d", "%d-%m-%Y"],
    date_output_format := "%Y-%m-%d",
    datetime_output_format := "%Y-%m-%d %H:%M:%S",
    type_mappings := [("text", "TEXT"), ("integer", "BIGINT"), ("date", "DATE")] }

def sampleCollection : CollectionConfig :=
  { target_table := "public.users",
    raw_json_column := "raw_json",
    object_id_attribute := "_id",
    mappings := [("name", { column := "name_col", type := "text" })] }

def sampleNow : PyDateTime :=
  { year := 2024, month := 1, day := 5, hour := 0, minute := 0, second := 0 }

def sampleDocs : List (Dict × Bool × Bool) :=
  [([("name", Value.vstr "Al"), ("_id", Value.vint 1)], true, true),
   ([("name", Value.vnone)], false, true),
   ([], true, false)]

/-- The trace `processCollection` yields on the sample inputs with the table
present in the database (used only to witness claim theorems). -/
def sampleTrace : CollectionTrace :=
  match processCollection sampleAudit sampleRuntime sampleCollection "users" true false
    sampleNow sampleDocs with
  | Except.ok t => t
  | Except.error _ =>
      { objectStatus := "", createdTable := false, missingDbRecorded := false,
        docs := [], events := [] }

/-! ## The claims -/

/-- C1: any coercion failure on one attribute in `transform_document` appends
the error string `"<attribute>: <message>"` to the errors list and sets the
target column to `null` in the transformed row, processing continuing; and no
document is ever rejected wholesale — every mapped attribute's target column
is bound in the returned row.  (The mapping's target columns are pairwise
distinct, the data-model invariant the provisioner enforces.) -/
theorem C1_coercion_failure_is_isolated :
    (∀ (document : Dict) (mappings : List (String × Mapping)) (df : List String)
        (dof dtf attr : String) (m : Mapping) (e : String),
        (mappings.map (fun p => p.2.column)).Nodup →
        (attr, m) ∈ mappings →
        hasKey document attr = true →
        (transform_value (docGet document attr) m.type df dof dtf).2 = some e →
        (attr ++ ": " ++ e) ∈ (transform_document document mappings df dof dtf).errors ∧
          alookup (transform_document document mappings df dof dtf).transformed m.column =
            some Value.vnone) ∧
    (∀ (document : Dict) (mappings : List (String × Mapping)) (df : List String)
        (dof dtf attr : String) (m : Mapping),
        (attr, m) ∈ mappings →
        (alookup (transform_document document mappings df dof dtf).transformed
            m.column).isSome) := by
  constructor
  · intro document mappings df dof dtf attr m e hnd hmem hk he
    exact ⟨transformLoop_error_mem document df dof dtf mappings _ attr m e hmem hk he,
      transformLoop_writes_null document df dof dtf mappings _ attr m hnd hmem
        (Or.inr (by simp [he]))⟩
  · intro document mappings df dof dtf attr m hmem
    exact transformLoop_coverage document df dof dtf mappings _ attr m hmem

/-- Witness for C1 at a concrete document whose `"a"` attribute fails integer
coercion. -/
theorem C1_witness :
    (("a" ++ ": " ++ "invalid value for type 'integer'") ∈
        (transform_document [("a", Value.vstr "xyz")]
          [("a", { column := "col_a", type := "integer" })] [] "" "").errors ∧
      alookup (transform_document [("a", Value.vstr "xyz")]
          [("a", { column := "col_a", type := "integer" })] [] "" "").transformed "col_a" =
        some Value.vnone) ∧
    (alookup (transform_document [("a", Value.vstr "xyz")]
        [("a", { column := "col_a", type := "integer" })] [] "" "").transformed
        "col_a").isSome := by
  refine ⟨C1_coercion_failure_is_isolated.1 [("a", Value.vstr "xyz")]
      [("a", { column := "col_a", type := "integer" })] [] "" "" "a"
      { column := "col_a", type := "integer" } "invalid value for type 'integer'"
      (by decide) (by simp) (by decide) rfl,
    C1_coercion_failure_is_isolated.2 [("a", Value.vstr "xyz")]
      [("a", { column := "col_a", type := "integer" })] [] "" "" "a"
      { column := "col_a", type := "integer" } (by simp)⟩

/-- C4: a document missing some mapped attributes and having no other field
errors yields `missing_columns` equal (hence equal in length) to the list of
target columns of the absent attributes, each such column `null` in the row,
an empty error list, and the orchestrator's per-document body assigns
processing status SUCCESS (destination table present, business insert
succeeding). -/
theorem C4_missing_attributes_still_succeed (document : Dict) (cc : CollectionConfig)
    (rt : RuntimeConfig) (audit : AuditConfig) (collection_name object_status : String)
    (now : PyDateTime) (auditOk : Bool)
    (hnoerr : ∀ a mp, (a, mp) ∈ cc.mappings → hasKey document a = true →
      (transform_value (docGet document a) mp.type rt.date_formats rt.date_output_format
        rt.datetime_output_format).2 = none)
    (hnodup : (cc.mappings.map (fun p => p.2.column)).Nodup) :
    (transform_document document cc.mappings rt.date_formats rt.date_output_format
        rt.datetime_output_format).missing_columns =
      (cc.mappings.filter (fun p => !(hasKey document p.1))).map (fun p => p.2.column) ∧
    (transform_document document cc.mappings rt.date_formats rt.date_output_format
        rt.datetime_output_format).errors = [] ∧
    (∀ a mp, (a, mp) ∈ cc.mappings → hasKey document a = false →
      alookup (transform_document document cc.mappings rt.date_formats rt.date_output_format
          rt.datetime_output_format).transformed mp.column = some Value.vnone) ∧
    (processDocument audit rt cc collection_name object_status true now document true
        auditOk).processingStatus = audit.statusSuccess := by
  have herr : (transform_document document cc.mappings rt.date_formats rt.date_output_format
      rt.datetime_output_format).errors = [] :=
    transformLoop_errors_clean document rt.date_formats rt.date_output_format
      rt.datetime_output_format cc.mappings _ hnoerr
  refine ⟨?_, herr, ?_, ?_⟩
  · simpa using transformLoop_missing_eq document rt.date_formats rt.date_output_format
      rt.datetime_output_format cc.mappings
      { transformed := [], missing_columns := [], errors := [] }
  · intro a mp hmem habs
    exact transformLoop_writes_null document rt.date_formats rt.date_output_format
      rt.datetime_output_format cc.mappings _ a mp hnodup hmem (Or.inl habs)
  · cases auditOk <;> simp [processDocument, herr]

/-- Witness for C4: a document missing its single mapped attribute. -/
theorem C4_witness :
    (transform_document [] sampleCollection.mappings sampleRuntime.date_formats
        sampleRuntime.date_output_format sampleRuntime.datetime_output_format).missing_columns =
      (sampleCollection.mappings.filter (fun p => !(hasKey [] p.1))).map
        (fun p => p.2.column) ∧
    (transform_document [] sampleCollection.mappings sampleRuntime.date_formats
        sampleRuntime.date_output_format sampleRuntime.datetime_output_format).errors = [] ∧
    (∀ a mp, (a, mp) ∈ sampleCollection.mappings → hasKey [] a = false →
      alookup (transform_document [] sampleCollection.mappings sampleRuntime.date_formats
          sampleRuntime.date_output_format
          sampleRuntime.datetime_output_format).transformed mp.column = some Value.vnone) ∧
    (processDocument sampleAudit sampleRuntime sampleCollection "users" "NEW" true sampleNow
        [] true true).processingStatus = sampleAudit.statusSuccess :=
  C4_missing_attributes_still_succeed [] sampleCollection sampleRuntime sampleAudit "users"
    "NEW" sampleNow true
    (by intro a mp _ hk; simp [hasKey, alookup] at hk)
    (by decide)

/-- C5 counterexample: with mapping `a -> (col_a, text)`, a present-but-null
field is NOT added to `missing_columns` (it stays empty), while the
structurally absent field is — so the two are not treated identically for
the missing-columns report, contrary to the claim. -/
theorem C5_counterexample :
    hasKey [("a", Value.vnone)] "a" = true ∧
    docGet [("a", Value.vnone)] "a" = Value.vnone ∧
    (transform_document [("a", Value.vnone)]
        [("a", { column := "col_a", type := "text" })] [] "" "").missing_columns = [] ∧
    (transform_document []
        [("a", { column := "col_a", type := "text" })] [] "" "").missing_columns =
      ["col_a"] :=
  ⟨rfl, rfl, rfl, rfl⟩

/-- C5 amended: a structurally absent field and a present-but-null field are
treated identically in the emitted value (`null`) and in producing no error,
but only the structurally absent field's target column joins
`missing_columns`; the present-but-null field's column is excluded from it.
(Target columns pairwise distinct, as the provisioner enforces.) -/
theorem C5_absent_vs_null_distinguished (document : Dict)
    (mappings : List (String × Mapping)) (df : List String) (dof dtf attr : String)
    (m : Mapping) (hnodup : (mappings.map (fun p => p.2.column)).Nodup)
    (hmem : (attr, m) ∈ mappings) :
    (hasKey document attr = false →
      m.column ∈ (transform_document document mappings df dof dtf).missing_columns ∧
        alookup (transform_document document mappings df dof dtf).transformed m.column =
          some Value.vnone) ∧
    (hasKey document attr = true → docGet document attr = Value.vnone →
      m.column ∉ (transform_document document mappings df dof dtf).missing_columns ∧
        alookup (transform_document document mappings df dof dtf).transformed m.column =
          some Value.vnone ∧
        (transform_value (docGet document attr) m.type df dof dtf).2 = none) := by
  constructor
  · intro habs
    refine ⟨?_, transformLoop_writes_null document df dof dtf mappings _ attr m hnodup hmem
      (Or.inl habs)⟩
    rw [show (transform_document document mappings df dof dtf).missing_columns =
        (mappings.filter (fun p => !(hasKey document p.1))).map (fun p => p.2.column) by
      simpa using transformLoop_missing_eq document df dof dtf mappings
        { transformed := [], missing_columns := [], errors := [] }]
    exact List.mem_map_of_mem _ (List.mem_filter.mpr ⟨hmem, by simp [habs]⟩)
  · intro hk hnull
    have hnone : (transform_value (docGet document attr) m.type df dof dtf).2 = none := by
      rw [hnull]
      rfl
    have hval : (transform_value (docGet document attr) m.type df dof dtf).1 = Value.vnone := by
      rw [hnull]
      rfl
    refine ⟨?_, ?_, hnone⟩
    · rw [show (transform_document document mappings df dof dtf).missing_columns =
          (mappings.filter (fun p => !(hasKey document p.1))).map (fun p => p.2.column) by
        simpa using transformLoop_missing_eq document df dof dtf mappings
          { transformed := [], missing_columns := [], errors := [] }]
      intro hmemmc
      obtain ⟨p, hpf, hpc⟩ := List.mem_map.mp hmemmc
      obtain ⟨hpmem, hpabs⟩ := List.mem_filter.mp hpf
      have : p = (attr, m) := by
        have h2 : p.2.column = ((attr, m) : String × Mapping).2.column := hpc
        exact List.inj_on_of_nodup_map hnodup hpmem hmem h2
      rw [this] at hpabs
      simp [hk] at hpabs
    · have := transformLoop_writes_value document df dof dtf mappings
        { transformed := [], missing_columns := [], errors := [] } attr m hnodup hmem hk hnone
      rw [hval] at this
      exact this

/-- Witness for the amended C5 at a concrete mapping, absent and null cases. -/
theorem C5_witness :
    ((hasKey [("b", Value.vint 1)] "a" = false →
      "col_a" ∈ (transform_document [("b", Value.vint 1)]
          [("a", { column := "col_a", type := "text" })] [] "" "").missing_columns ∧
        alookup (transform_document [("b", Value.vint 1)]
            [("a", { column := "col_a", type := "text" })] [] "" "").transformed "col_a" =
          some Value.vnone) ∧
      (hasKey [("b", Value.vint 1)] "a" = true →
        docGet [("b", Value.vint 1)] "a" = Value.vnone →
        "col_a" ∉ (transform_document [("b", Value.vint 1)]
            [("a", { column := "col_a", type := "text" })] [] "" "").missing_columns ∧
          alookup (transform_document [("b", Value.vint 1)]
              [("a", { column := "col_a", type := "text" })] [] "" "").transformed "col_a" =
            some Value.vnone ∧
          (transform_value (docGet [("b", Value.vint 1)] "a") "text" [] "" "").2 = none)) ∧
    ((hasKey [("a", Value.vnone)] "a" = false →
      "col_a" ∈ (transform_document [("a", Value.vnone)]
          [("a", { column := "col_a", type := "text" })] [] "" "").missing_columns ∧
        alookup (transform_document [("a", Value.vnone)]
            [("a", { column := "col_a", type := "text" })] [] "" "").transformed "col_a" =
          some Value.vnone) ∧
      (hasKey [("a", Value.vnone)] "a" = true →
        docGet [("a", Value.vnone)] "a" = Value.vnone →
        "col_a" ∉ (transform_document [("a", Value.vnone)]
            [("a", { column := "col_a", type := "text" })] [] "" "").missing_columns ∧
          alookup (transform_document [("a", Value.vnone)]
              [("a", { column := "col_a", type := "text" })] [] "" "").transformed "col_a" =
            some Value.vnone ∧
          (transform_value (docGet [("a", Value.vnone)] "a") "text" [] "" "").2 = none)) :=
  ⟨C5_absent_vs_null_distinguished [("b", Value.vint 1)]
      [("a", { column := "col_a", type := "text" })] [] "" "" "a"
      { column := "col_a", type := "text" } (by decide) (by simp),
    C5_absent_vs_null_distinguished [("a", Value.vnone)]
      [("a", { column := "col_a", type := "text" })] [] "" "" "a"
      { column := "col_a", type := "text" } (by decide) (by simp)⟩

theorem normalize_boolean_vstr (s : String) :
    normalize_boolean (Value.vstr s) =
      (if ["true", "t", "yes", "y", "1"].contains (strLower (strStrip s)) = true then some true
       else if ["false", "f", "no", "n", "0"].contains (strLower (strStrip s)) = true then
         some false
       else none) := rfl

/-- C7: `normalize_boolean` is total over native booleans, native numbers
(mapped by numeric truthiness), and the case-insensitive trimmed string
vocabularies (true for `{"true","t","yes","y","1"}`, false for
`{"false","f","no","n","0"}`); every other string fails with an error. -/
theorem C7_normalize_boolean_total :
    (∀ b, normalize_boolean (Value.vbool b) = some b) ∧
    (∀ n : Int, normalize_boolean (Value.vint n) = some (decide (n ≠ 0))) ∧
    (∀ q : ℚ, normalize_boolean (Value.vfloat q) = some (decide (q ≠ 0))) ∧
    (∀ s, strLower (strStrip s) ∈ ["true", "t", "yes", "y", "1"] →
      normalize_boolean (Value.vstr s) = some true) ∧
    (∀ s, strLower (strStrip s) ∈ ["false", "f", "no", "n", "0"] →
      normalize_boolean (Value.vstr s) = some false) ∧
    (∀ s, strLower (strStrip s) ∉ ["true", "t", "yes", "y", "1"] →
      strLower (strStrip s) ∉ ["false", "f", "no", "n", "0"] →
      normalize_boolean (Value.vstr s) = none) := by
  refine ⟨fun b => rfl, fun n => rfl, fun q => rfl, ?_, ?_, ?_⟩
  · intro s h
    have hc : (["true", "t", "yes", "y", "1"].contains (strLower (strStrip s))) = true := by
      simpa using h
    rw [normalize_boolean_vstr, hc]
    rfl
  · intro s h
    have hmem : strLower (strStrip s) = "false" ∨ strLower (strStrip s) = "f" ∨
        strLower (strStrip s) = "no" ∨ strLower (strStrip s) = "n" ∨
        strLower (strStrip s) = "0" := by
      simpa using h
    have hct : (["true", "t", "yes", "y", "1"].contains (strLower (strStrip s))) = false := by
      rcases hmem with h0 | h0 | h0 | h0 | h0 <;> rw [h0] <;> decide
    have hcf : (["false", "f", "no", "n", "0"].contains (strLower (strStrip s))) = true := by
      simpa using h
    rw [normalize_boolean_vstr, hct, hcf]
    rfl
  · intro s h1 h2
    have hct : (["true", "t", "yes", "y", "1"].contains (strLower (strStrip s))) = false := by
      simpa using h1
    have hcf : (["false", "f", "no", "n", "0"].contains (strLower (strStrip s))) = false := by
      simpa using h2
    rw [normalize_boolean_vstr, hct, hcf]
    rfl

/-- Witness for C7 at representative concrete inputs, including the failing
strings `"maybe"` and `""`. -/
theorem C7_witness :
    normalize_boolean (Value.vbool true) = some true ∧
    normalize_boolean (Value.vint 7) = some (decide ((7 : Int) ≠ 0)) ∧
    normalize_boolean (Value.vfloat 0) = some (decide ((0 : ℚ) ≠ 0)) ∧
    normalize_boolean (Value.vstr " YES ") = some true ∧
    normalize_boolean (Value.vstr "F") = some false ∧
    normalize_boolean (Value.vstr "maybe") = none ∧
    normalize_boolean (Value.vstr "") = none :=
  ⟨C7_normalize_boolean_total.1 true,
    C7_normalize_boolean_total.2.1 7,
    C7_normalize_boolean_total.2.2.1 0,
    C7_normalize_boolean_total.2.2.2.1 " YES " (by decide),
    C7_normalize_boolean_total.2.2.2.2.1 "F" (by decide),
    C7_normalize_boolean_total.2.2.2.2.2 "maybe" (by decide) (by decide),
    C7_normalize_boolean_total.2.2.2.2.2 "" (by decide) (by decide)⟩

/-- C8: the configured date formats are tried in list order with the first
match winning; with formats `["%Y-%m-%d", "%d-%m-%Y"]` the input
`"2024-01-05"` parses as year-month-day and is reformatted with the output
format; a pre-parsed date or datetime value is accepted directly. -/
theorem C8_first_format_wins :
    (∀ (s f : String) (rest : List String) (dt : PyDateTime),
      strptime s f = some dt → parse_date (Value.vstr s) (f :: rest) = some dt.date) ∧
    (∀ (s f : String) (rest : List String),
      strptime s f = none →
      parse_date (Value.vstr s) (f :: rest) = parse_date (Value.vstr s) rest) ∧
    parse_date (Value.vstr "2024-01-05") ["%Y-%m-%d", "%d-%m-%Y"] =
      some { year := 2024, month := 1, day := 5 } ∧
    (∀ dtf, transform_value (Value.vstr "2024-01-05") "date" ["%Y-%m-%d", "%d-%m-%Y"]
        "%Y-%m-%d" dtf = (Value.vstr "2024-01-05", none)) ∧
    (∀ (dt : PyDateTime) (fmts : List String),
      parse_date (Value.vdatetime dt) fmts = some dt.date) ∧
    (∀ (d : PyDate) (fmts : List String), parse_date (Value.vdate d) fmts = some d) := by
  refine ⟨?_, ?_, by decide, fun dtf => rfl, fun dt fmts => rfl, fun d fmts => rfl⟩
  · intro s f rest dt h
    simp [parse_date, tryDateFormats, h]
  · intro s f rest h
    simp [parse_date, tryDateFormats, h]

/-- Witness for C8: the first format matches `"2024-01-05"` concretely, and
the first-format failure case steps to the remaining formats. -/
theorem C8_witness :
    parse_date (Value.vstr "2024-01-05") ["%Y-%m-%d", "%d-%m-%Y"] =
      some (PyDateTime.date
        { year := 2024, month := 1, day := 5, hour := 0, minute := 0, second := 0 }) ∧
    parse_date (Value.vstr "05-01-2024") ["%Y-%m-%d", "%d-%m-%Y"] =
      parse_date (Value.vstr "05-01-2024") ["%d-%m-%Y"] :=
  ⟨C8_first_format_wins.1 "2024-01-05" "%Y-%m-%d" ["%d-%m-%Y"]
      { year := 2024, month := 1, day := 5, hour := 0, minute := 0, second := 0 } (by decide),
    C8_first_format_wins.2.1 "05-01-2024" "%Y-%m-%d" ["%d-%m-%Y"] (by decide)⟩

theorem splitAtDot_cons (c : Char) (rest : List Char) (h : ¬ c = '.') :
    splitAtDot (c :: rest) = (splitAtDot rest).map (fun p => (c :: p.1, p.2)) := by
  conv_lhs => rw [splitAtDot.eq_def]
  split
  · rename_i heq
    simp at heq
  · rename_i rest0 heq
    rw [List.cons.injEq] at heq
    exact absurd heq.1 h
  · rename_i c0 rest0 hnd heq
    rw [List.cons.injEq] at heq
    rw [heq.1, heq.2]

theorem splitAtDot_of_no_dot (cs : List Char) (h : '.' ∉ cs) : splitAtDot cs = none := by
  induction cs with
  | nil => rfl
  | cons c rest ih =>
      simp only [List.mem_cons, not_or] at h
      obtain ⟨hne, hrest⟩ := h
      rw [splitAtDot_cons c rest (fun he => hne he.symm), ih hrest]
      rfl

theorem splitAtDot_append (pre post : List Char) (h : '.' ∉ pre) :
    splitAtDot (pre ++ '.' :: post) = some (pre, post) := by
  induction pre with
  | nil => rfl
  | cons c rest ih =>
      simp only [List.mem_cons, not_or] at h
      obtain ⟨hne, hrest⟩ := h
      rw [List.cons_append, splitAtDot_cons c _ (fun he => hne he.symm), ih hrest]
      rfl

/-- C9 counterexample: `normalize_table_name` identifies `"PUBLIC.USERS"` and
`"public.users"`, yet `table_exists` answers differently for them against a
catalog holding `(public, users)` — so not every table-name comparison is
performed under the normalization; the catalog lookup is case-sensitive. -/
theorem C9_counterexample :
    normalize_table_name "PUBLIC.USERS" = normalize_table_name "public.users" ∧
    table_exists [("public", "users")] "public.users" = true ∧
    table_exists [("public", "users")] "PUBLIC.USERS" = false := by
  refine ⟨by decide, by decide, by decide⟩

/-- C9 amended: `normalize_table_name` lower-cases both the schema and table
segments and defaults an unqualified name to schema `public` (and the
schema-set comparisons in the orchestrator use it); `table_exists`
schema-qualifies with the same split and `public` default but compares the
segments exactly, case-sensitively — witnessed by a catalog on which two
names with equal normalizations get different answers. -/
theorem C9_normalization_and_catalog_lookup (schema table name : String)
    (hschema : '.' ∉ schema.data) (hname : '.' ∉ name.data) :
    split_table_name (schema ++ "." ++ table) = (schema, table) ∧
    split_table_name name = ("public", name) ∧
    normalize_table_name name = "public." ++ strLower name ∧
    normalize_table_name (schema ++ "." ++ table) = strLower schema ++ "." ++ strLower table ∧
    (∀ catalog, table_exists catalog name =
      catalog.any (fun q => q.1 == "public" && q.2 == name)) ∧
    (∃ catalog n1 n2, normalize_table_name n1 = normalize_table_name n2 ∧
      table_exists catalog n1 ≠ table_exists catalog n2) := by
  have hsplitq : split_table_name (schema ++ "." ++ table) = (schema, table) := by
    unfold split_table_name
    rw [show (schema ++ "." ++ table).data = schema.data ++ '.' :: table.data by
      simp [String.data_append]]
    rw [splitAtDot_append _ _ hschema]
  have hsplitu : split_table_name name = ("public", name) := by
    unfold split_table_name
    rw [splitAtDot_of_no_dot _ hname]
  refine ⟨hsplitq, hsplitu, ?_, ?_, ?_, ?_⟩
  · unfold normalize_table_name
    rw [hsplitu]
    show strLower "public" ++ "." ++ strLower name = "public." ++ strLower name
    rw [show strLower "public" = "public" by decide,
      show ("public" ++ "." : String) = "public." by decide]
  · unfold normalize_table_name
    rw [hsplitq]
  · intro catalog
    unfold table_exists
    rw [hsplitu]
  · exact ⟨[("public", "users")], "public.users", "PUBLIC.USERS", by decide, by decide⟩

/-- Witness for the amended C9 at concrete names. -/
theorem C9_witness :
    split_table_name ("myschema" ++ "." ++ "Users") = ("myschema", "Users") ∧
    split_table_name "users" = ("public", "users") ∧
    normalize_table_name "users" = "public." ++ strLower "users" ∧
    normalize_table_name ("myschema" ++ "." ++ "Users") =
      strLower "myschema" ++ "." ++ strLower "Users" ∧
    (∀ catalog, table_exists catalog "users" =
      catalog.any (fun q => q.1 == "public" && q.2 == "users")) ∧
    (∃ catalog n1 n2, normalize_table_name n1 = normalize_table_name n2 ∧
      table_exists catalog n1 ≠ table_exists catalog n2) :=
  C9_normalization_and_catalog_lookup "myschema" "Users" "users" (by decide) (by decide)

/-- C10: `transform_value` on a present null value returns `(null, no error)`
for every target type name without any type dispatch; in particular an
unsupported type name, which yields the unsupported-target-type error on any
non-null value, yields no error on null. -/
theorem C10_null_short_circuits_dispatch :
    (∀ (target_type : String) (df : List String) (dof dtf : String),
      transform_value Value.vnone target_type df dof dtf = (Value.vnone, none)) ∧
    (∀ (target_type : String) (df : List String) (dof dtf : String),
      normalize_type target_type ∉
        ["text", "string", "varchar", "integer", "int", "bigint", "smallint", "float",
         "double", "double precision", "numeric", "decimal", "boolean", "bool", "date",
         "datetime"] →
      transform_value (Value.vstr "x") target_type df dof dtf =
        (Value.vnone, some ("unsupported target type '" ++ target_type ++ "'"))) := by
  refine ⟨fun _ _ _ _ => rfl, ?_⟩
  intro target_type df dof dtf h
  simp only [List.mem_cons, List.not_mem_nil, or_false, not_or] at h
  obtain ⟨h1, h2, h3, h4, h5, h6, h7, h8, h9, h10, h11, h12, h13, h14, h15, h16⟩ := h
  show (let nt := normalize_type target_type
    if nt = "text" ∨ nt = "string" ∨ nt = "varchar" then
      (Value.vstr (pyStr (Value.vstr "x")), none)
    else if nt = "integer" ∨ nt = "int" ∨ nt = "bigint" ∨ nt = "smallint" then
      match pyInt (Value.vstr "x") with
      | some n => (Value.vint n, none)
      | none => (Value.vnone, some ("invalid value for type '" ++ target_type ++ "'"))
    else if nt = "float" ∨ nt = "double" ∨ nt = "double precision" then
      match pyFloat (Value.vstr "x") with
      | some q => (Value.vfloat q, none)
      | none => (Value.vnone, some ("invalid value for type '" ++ target_type ++ "'"))
    else if nt = "numeric" ∨ nt = "decimal" then
      if isDecimalString (pyStr (Value.vstr "x")) then
        (Value.vdecimal (pyStr (Value.vstr "x")), none)
      else (Value.vnone, some ("invalid value for type '" ++ target_type ++ "'"))
    else if nt = "boolean" ∨ nt = "bool" then
      match normalize_boolean (Value.vstr "x") with
      | some b => (Value.vbool b, none)
      | none => (Value.vnone, some ("invalid value for type '" ++ target_type ++ "'"))
    else if nt = "date" then
      match parse_date (Value.vstr "x") df with
      | none => (Value.vnone, some "invalid date format")
      | some d => (Value.vstr (PyDate.strftime d dof), none)
    else if nt = "datetime" then
      match parse_datetime (Value.vstr "x") df with
      | none => (Value.vnone, some "invalid datetime format")
      | some dt => (Value.vstr (PyDateTime.strftime dt dtf), none)
    else
      (Value.vnone, some ("unsupported target type '" ++ target_type ++ "'"))) =
    (Value.vnone, some ("unsupported target type '" ++ target_type ++ "'"))
  simp [h1, h2, h3, h4, h5, h6, h7, h8, h9, h10, h11, h12, h13, h14, h15, h16]

/-- Witness for C10 at the unsupported type name `"uuid"`. -/
theorem C10_witness :
    transform_value Value.vnone "uuid" [] "" "" = (Value.vnone, none) ∧
    transform_value (Value.vstr "x") "uuid" [] "" "" =
      (Value.vnone, some ("unsupported target type '" ++ "uuid" ++ "'")) :=
  ⟨C10_null_short_circuits_dispatch.1 "uuid" [] "" "",
    C10_null_short_circuits_dispatch.2 "uuid" [] "" "" (by decide)⟩

/-- C6 — the code contradicts the claim: when auto-create is disabled,
`ensure_database` returns on its first line before any pre-flight probe, so
the disabled-and-missing combination raises no load error at all (the raise
on source lines 133-136 is unreachable); the outcome records that no probe
ran and nothing was created, for every possible probe/admin environment. -/
theorem C6_disabled_skips_probe_entirely :
    ∀ (name : String) (probe : ProbeResult) (admin : AdminResult),
      ensure_database { name := name, create_if_missing := false } probe admin =
        EnsureOutcome.done false false := by
  intro name probe admin
  rfl

/-- Per-document body: exactly one audit-table insert is attempted, and it
carries the built audit row, whatever the business outcome. -/
theorem processDocument_one_audit_insert (audit : AuditConfig) (rt : RuntimeConfig)
    (cc : CollectionConfig) (collection_name object_status : String) (tableExists : Bool)
    (now : PyDateTime) (doc : Dict) (businessOk auditOk : Bool)
    (h : audit.audit_table ≠ cc.target_table) :
    countInsertsTo audit.audit_table
      (processDocument audit rt cc collection_name object_status tableExists now doc
        businessOk auditOk).events = 1 ∧
    Event.insertRow audit.audit_table
        (processDocument audit rt cc collection_name object_status tableExists now doc
          businessOk auditOk).auditRow ∈
      (processDocument audit rt cc collection_name object_status tableExists now doc
        businessOk auditOk).events := by
  have hb : (cc.target_table == audit.audit_table) = false := by
    simpa using fun he => h he.symm
  have ha : (audit.audit_table == audit.audit_table) = true := by simp
  cases tableExists <;> cases businessOk <;> cases auditOk <;>
    simp [processDocument, countInsertsTo, hb, ha]

/-- Per-document body with the destination table absent: no business insert
is attempted (zero inserts against the destination table), no DDL is issued,
the document's processing status is the configured MISSING value, its audit
row is built with that status, and it is recorded as an insert failure. -/
theorem processDocument_missing_table (audit : AuditConfig) (rt : RuntimeConfig)
    (cc : CollectionConfig) (collection_name object_status : String) (now : PyDateTime)
    (doc : Dict) (businessOk auditOk : Bool)
    (h : audit.audit_table ≠ cc.target_table) :
    (processDocument audit rt cc collection_name object_status false now doc businessOk
        auditOk).processingStatus = audit.statusMissing ∧
    (processDocument audit rt cc collection_name object_status false now doc businessOk
        auditOk).recordedInsertFailed = true ∧
    countInsertsTo cc.target_table
      (processDocument audit rt cc collection_name object_status false now doc businessOk
        auditOk).events = 0 ∧
    hasCreateTable
      (processDocument audit rt cc collection_name object_status false now doc businessOk
        auditOk).events = false ∧
    (∃ oid, (processDocument audit rt cc collection_name object_status false now doc
        businessOk auditOk).auditRow =
      build_audit_row audit oid (some collection_name) cc.target_table object_status
        (transform_document doc cc.mappings rt.date_formats rt.date_output_format
          rt.datetime_output_format).missing_columns audit.statusMissing now) := by
  have hb : (audit.audit_table == cc.target_table) = false := by simpa using h
  refine ⟨?_, ?_, ?_, ?_, ?_⟩
  · cases auditOk <;> simp [processDocument]
  · cases auditOk <;> simp [processDocument]
  · cases auditOk <;> simp [processDocument, countInsertsTo, hb]
  · cases auditOk <;> simp [processDocument, hasCreateTable]
  · exact ⟨match docGet doc cc.object_id_attribute with
      | Value.vnone => none
      | v => some (pyStr v), by cases auditOk <;> rfl⟩

theorem countFlattenZeros (tbl : String) (l : List DocTrace)
    (h : ∀ dt ∈ l, countInsertsTo tbl dt.events = 0) :
    countInsertsTo tbl (l.map (fun dt => dt.events)).flatten = 0 := by
  induction l with
  | nil => rfl
  | cons d rest ih =>
      rw [List.map_cons, List.flatten_cons]
      unfold countInsertsTo at h ⊢
      rw [List.countP_append]
      have hd := h d (by simp)
      unfold countInsertsTo at hd
      rw [hd]
      have hr := ih (fun dt hdt => h dt (by simp [hdt]))
      unfold countInsertsTo at hr
      rw [hr]

theorem hasCreateTable_flatten (l : List DocTrace)
    (h : ∀ dt ∈ l, hasCreateTable dt.events = false) :
    hasCreateTable (l.map (fun dt => dt.events)).flatten = false := by
  induction l with
  | nil => rfl
  | cons d rest ih =>
      rw [List.map_cons, List.flatten_cons]
      unfold hasCreateTable at h ⊢
      rw [List.any_append]
      have hd := h d (by simp)
      unfold hasCreateTable at hd
      rw [hd]
      have hr := ih (fun dt hdt => h dt (by simp [hdt]))
      unfold hasCreateTable at hr
      rw [hr]
      rfl

theorem countFlattenOnes (tbl : String) (l : List DocTrace)
    (h : ∀ dt ∈ l, countInsertsTo tbl dt.events = 1) :
    countInsertsTo tbl (l.map (fun dt => dt.events)).flatten = l.length := by
  induction l with
  | nil => rfl
  | cons d rest ih =>
      rw [List.map_cons, List.flatten_cons]
      unfold countInsertsTo at h ⊢
      rw [List.countP_append]
      have hd := h d (by simp)
      unfold countInsertsTo at hd
      rw [hd]
      have hr := ih (fun dt hdt => h dt (by simp [hdt]))
      unfold countInsertsTo at hr
      rw [hr]
      simp [Nat.add_comm]

/-- C3: for every document iterated by the per-document loop, exactly one
audit-row insert is attempted — one `build_audit_row` result inserted once
into the audit table — regardless of whether the business insert succeeded,
failed, or was skipped because the destination table was missing. -/
theorem C3_one_audit_attempt_per_document (audit : AuditConfig) (rt : RuntimeConfig)
    (cc : CollectionConfig) (collection_name : String) (tableInDb inSchema : Bool)
    (now : PyDateTime) (docs : List (Dict × Bool × Bool)) (t : CollectionTrace)
    (hdistinct : audit.audit_table ≠ cc.target_table)
    (hok : processCollection audit rt cc collection_name tableInDb inSchema now docs =
      Except.ok t) :
    countInsertsTo audit.audit_table t.events = docs.length ∧
    t.docs.length = docs.length ∧
    (∀ dt ∈ t.docs, countInsertsTo audit.audit_table dt.events = 1 ∧
      Event.insertRow audit.audit_table dt.auditRow ∈ dt.events) := by
  have hone : ∀ (ost : String) (te : Bool) (dts : List DocTrace),
      dts = docs.map (fun p => processDocument audit rt cc collection_name ost te now
        p.1 p.2.1 p.2.2) →
      countInsertsTo audit.audit_table (dts.map (fun dt => dt.events)).flatten =
          docs.length ∧
        dts.length = docs.length ∧
        (∀ dt ∈ dts, countInsertsTo audit.audit_table dt.events = 1 ∧
          Event.insertRow audit.audit_table dt.auditRow ∈ dt.events) := by
    intro ost te dts hdts
    have hmem : ∀ dt ∈ dts, countInsertsTo audit.audit_table dt.events = 1 ∧
        Event.insertRow audit.audit_table dt.auditRow ∈ dt.events := by
      intro dt hdt
      rw [hdts] at hdt
      obtain ⟨p, hp, hpe⟩ := List.mem_map.mp hdt
      rw [← hpe]
      exact processDocument_one_audit_insert audit rt cc collection_name ost te now p.1
        p.2.1 p.2.2 hdistinct
    refine ⟨?_, by rw [hdts]; simp, hmem⟩
    rw [countFlattenOnes _ _ (fun dt hdt => (hmem dt hdt).1), hdts]
    simp
  unfold processCollection at hok
  by_cases hcase : ¬ tableInDb ∧ ¬ inSchema
  · rw [if_pos hcase] at hok
    rcases hbtc : build_table_columns cc.mappings cc.raw_json_column rt.type_mappings
        audit.business_columns audit.business_column_types with e | cols <;>
      rw [hbtc] at hok <;> simp only [] at hok
    · cases hok
    · obtain rfl := (Except.ok.injEq _ _).mp hok
      obtain ⟨hc1, hc2, hc3⟩ := hone _ true _ rfl
      refine ⟨?_, hc2, hc3⟩
      show countInsertsTo audit.audit_table
        ([Event.createSchema (split_table_name cc.target_table).1,
          Event.createTable cc.target_table cols, Event.commit] ++
          ((docs.map fun p => processDocument audit rt cc collection_name
            (if tableInDb = true then audit.objStatusAlreadyExists
             else if ¬inSchema = true then audit.objStatusNew
             else audit.objStatusMissing) true now p.1 p.2.1 p.2.2).map
            (fun dt => dt.events)).flatten) = docs.length
      unfold countInsertsTo at hc1 ⊢
      rw [List.countP_append, hc1]
      simp
  · rw [if_neg hcase] at hok
    obtain rfl := (Except.ok.injEq _ _).mp hok
    obtain ⟨hc1, hc2, hc3⟩ := hone _ tableInDb _ rfl
    exact ⟨hc1, hc2, hc3⟩

/-- C2: the table-resolution policy in priority order — table present in the
database gives ALREADY_EXISTS; otherwise not declared in the schema source
gives NEW with an auto-create from the mapping's derived columns; otherwise
(declared in the schema source, absent from the database) gives MISSING with
no auto-create, zero business-row inserts, every document audited with
processing status MISSING, and every document counted as an insert failure. -/
theorem C2_table_resolution_policy (audit : AuditConfig) (rt : RuntimeConfig)
    (cc : CollectionConfig) (collection_name : String) (tableInDb inSchema : Bool)
    (now : PyDateTime) (docs : List (Dict × Bool × Bool))
    (hdistinct : audit.audit_table ≠ cc.target_table) :
    (tableInDb = true → ∃ t, processCollection audit rt cc collection_name tableInDb
        inSchema now docs = Except.ok t ∧
      t.objectStatus = audit.objStatusAlreadyExists ∧ t.createdTable = false) ∧
    (tableInDb = false → inSchema = false →
      ∀ cols, build_table_columns cc.mappings cc.raw_json_column rt.type_mappings
          audit.business_columns audit.business_column_types = Except.ok cols →
      ∃ t, processCollection audit rt cc collection_name tableInDb inSchema now docs =
          Except.ok t ∧
        t.objectStatus = audit.objStatusNew ∧ t.createdTable = true ∧
        Event.createTable cc.target_table cols ∈ t.events) ∧
    (tableInDb = false → inSchema = true →
      ∃ t, processCollection audit rt cc collection_name tableInDb inSchema now docs =
          Except.ok t ∧
        t.objectStatus = audit.objStatusMissing ∧ t.createdTable = false ∧
        hasCreateTable t.events = false ∧
        countInsertsTo cc.target_table t.events = 0 ∧
        t.docs.length = docs.length ∧
        (∀ dt ∈ t.docs, dt.processingStatus = audit.statusMissing ∧
          dt.recordedInsertFailed = true ∧
          ∃ oid mc, dt.auditRow = build_audit_row audit oid (some collection_name)
            cc.target_table audit.objStatusMissing mc audit.statusMissing now)) := by
  refine ⟨?_, ?_, ?_⟩
  · intro h1
    subst h1
    have heq : processCollection audit rt cc collection_name true inSchema now docs =
        Except.ok
          { objectStatus := audit.objStatusAlreadyExists,
            createdTable := false,
            missingDbRecorded := false,
            docs := docs.map (fun p => processDocument audit rt cc collection_name
              audit.objStatusAlreadyExists true now p.1 p.2.1 p.2.2),
            events := ((docs.map (fun p => processDocument audit rt cc collection_name
              audit.objStatusAlreadyExists true now p.1 p.2.1 p.2.2)).map
                (fun dt => dt.events)).flatten } := by
      unfold processCollection
      rw [if_neg (by simp)]
      simp
    exact ⟨_, heq, rfl, rfl⟩
  · intro h1 h2 cols hcols
    subst h1
    subst h2
    have heq : processCollection audit rt cc collection_name false false now docs =
        Except.ok
          { objectStatus := audit.objStatusNew,
            createdTable := true,
            missingDbRecorded := false,
            docs := docs.map (fun p => processDocument audit rt cc collection_name
              audit.objStatusNew true now p.1 p.2.1 p.2.2),
            events := [Event.createSchema (split_table_name cc.target_table).1,
              Event.createTable cc.target_table cols, Event.commit] ++
              ((docs.map (fun p => processDocument audit rt cc collection_name
                audit.objStatusNew true now p.1 p.2.1 p.2.2)).map
                  (fun dt => dt.events)).flatten } := by
      unfold processCollection
      rw [if_pos (by simp), hcols]
      simp
    exact ⟨_, heq, rfl, rfl, by simp⟩
  · intro h1 h2
    subst h1
    subst h2
    have heq : processCollection audit rt cc collection_name false true now docs =
        Except.ok
          { objectStatus := audit.objStatusMissing,
            createdTable := false,
            missingDbRecorded := true,
            docs := docs.map (fun p => processDocument audit rt cc collection_name
              audit.objStatusMissing false now p.1 p.2.1 p.2.2),
            events := ((docs.map (fun p => processDocument audit rt cc collection_name
              audit.objStatusMissing false now p.1 p.2.1 p.2.2)).map
                (fun dt => dt.events)).flatten } := by
      unfold processCollection
      rw [if_neg (by simp)]
      simp
    refine ⟨_, heq, rfl, rfl, ?_, ?_, by simp, ?_⟩
    · apply hasCreateTable_flatten
      intro dt hdt
      obtain ⟨p, hp, hpe⟩ := List.mem_map.mp hdt
      rw [← hpe]
      exact (processDocument_missing_table audit rt cc collection_name
        audit.objStatusMissing now p.1 p.2.1 p.2.2 hdistinct).2.2.2.1
    · apply countFlattenZeros
      intro dt hdt
      obtain ⟨p, hp, hpe⟩ := List.mem_map.mp hdt
      rw [← hpe]
      exact (processDocument_missing_table audit rt cc collection_name
        audit.objStatusMissing now p.1 p.2.1 p.2.2 hdistinct).2.2.1
    · intro dt hdt
      obtain ⟨p, hp, hpe⟩ := List.mem_map.mp hdt
      obtain ⟨hs, hf, _, _, ⟨oid, hrow⟩⟩ := processDocument_missing_table audit rt cc
        collection_name audit.objStatusMissing now p.1 p.2.1 p.2.2 hdistinct
      rw [← hpe]
      exact ⟨hs, hf, oid, _, hrow⟩

/-- Witness for C2: the MISSING branch at sample configuration (mapped
collection, declared in schema source, absent from database). -/
theorem C2_witness :
    ∃ t, processCollection sampleAudit sampleRuntime sampleCollection "users" false true
        sampleNow sampleDocs = Except.ok t ∧
      t.objectStatus = sampleAudit.objStatusMissing ∧ t.createdTable = false ∧
      hasCreateTable t.events = false ∧
      countInsertsTo sampleCollection.target_table t.events = 0 ∧
      t.docs.length = sampleDocs.length ∧
      (∀ dt ∈ t.docs, dt.processingStatus = sampleAudit.statusMissing ∧
        dt.recordedInsertFailed = true ∧
        ∃ oid mc, dt.auditRow = build_audit_row sampleAudit oid (some "users")
          sampleCollection.target_table sampleAudit.objStatusMissing mc
          sampleAudit.statusMissing sampleNow) :=
  (C2_table_resolution_policy sampleAudit sampleRuntime sampleCollection "users" false true
    sampleNow sampleDocs (by decide)).2.2 rfl rfl

/-- Witness for C3 at the sample collection run: three documents — a clean
insert, a failed business insert, and a failed audit insert — each attempt
exactly one audit insert. -/
theorem C3_witness :
    countInsertsTo sampleAudit.audit_table sampleTrace.events = sampleDocs.length ∧
    sampleTrace.docs.length = sampleDocs.length ∧
    (∀ dt ∈ sampleTrace.docs, countInsertsTo sampleAudit.audit_table dt.events = 1 ∧
      Event.insertRow sampleAudit.audit_table dt.auditRow ∈ dt.events) :=
  C3_one_audit_attempt_per_document sampleAudit sampleRuntime sampleCollection "users" true
    false sampleNow sampleDocs sampleTrace (by decide) rfl

end ETL